import Mathlib

/-!
Verification development for the provider abstraction and diff-submission
pipeline of the aicommit repository (src/lib/ai-providers.js together with
its duplicated concise-template variant, and the credential fields of
src/lib/config.js).

JavaScript strings are modelled as Lean `String`; `undefined` is modelled by
`Option.none`.  JavaScript truthiness on strings (the empty string is falsy)
is modelled by `truthy`, and the `||` operator on optional strings by `jsOr`.
The network layer is modelled by explicit stubs: each provider function takes
the outcome its single network call would produce, and the dispatch result
records the observable effects (console advisories, number of network calls
attempted, prompts built, API keys handed to the network layer) next to the
returned value or thrown error.
-/

namespace AICommit

/-- Model of the JavaScript string method `s.substring(0, n)`: the first `n`
characters of `s` (all of `s` when it is shorter). -/
def jsSubstring (s : String) (n : Nat) : String := ⟨s.data.take n⟩

/-- Model of the JavaScript string method `trim`: remove leading and trailing
whitespace characters. -/
def jsTrim (s : String) : String :=
  ⟨((s.data.dropWhile Char.isWhitespace).reverse.dropWhile Char.isWhitespace).reverse⟩

/-- JavaScript truthiness of an optional string: `undefined` (`none`) and the
empty string are falsy, every other string is truthy. -/
def truthy : Option String → Bool
  | none => false
  | some s => !(s == "")

/-- The JavaScript `a || b` operator on optional strings: `a` when truthy,
otherwise `b`. -/
def jsOr (a b : Option String) : Option String := if truthy a then a else b

/-- The JavaScript `a || b` operator where `a` is an optional string and `b`
a plain string default. -/
def jsOrStr (a : Option String) (b : String) : String :=
  if truthy a then a.getD "" else b

/-- The JavaScript `a || b` operator on an optional number with a plain
default (`0` and `undefined` are falsy). -/
def jsOrNat (a : Option Nat) (b : Nat) : Nat :=
  match a with
  | some n => if n = 0 then b else n
  | none => b

/-- The `apiKeys` object of the configuration (src/lib/config.js): one
optional secret per vendor.  `none` models an absent property, `some ""` the
empty-string default written by `loadConfig`. -/
structure ApiKeys where
  anthropic : Option String
  openai : Option String
  gemini : Option String
deriving DecidableEq, Repr

/-- The configuration object.  The `apiKeys` property itself may be absent
(the source reads it with optional chaining, `config.apiKeys?.x`).  The other
configuration properties (default provider, auto-commit flag) are never read
by this core and are omitted. -/
structure Config where
  apiKeys : Option ApiKeys
deriving DecidableEq, Repr

/-- The process environment: a total map from variable names to an optional
string value. -/
def Env : Type := String → Option String

/-- DIFF_LIMITS (src/lib/ai-providers.js lines 9 to 13): the per-provider
character limit for diff text; `none` for providers without an entry. -/
def DIFF_LIMITS (provider : String) : Option Nat :=
  if provider = "claude" then some 100000
  else if provider = "openai" then some 80000
  else if provider = "gemini" then some 25000
  else none

/-- The template style: the repository holds two near-identical copies of the
provider module whose only behavioral difference is the prompt template; the
thorough variant is src/lib/ai-providers.js, the concise variant is the
duplicated module. -/
inductive Style where
  | thorough
  | concise
deriving DecidableEq, Repr

def thoroughRole : String :=
  "You are an expert developer writing a detailed git commit message. Analyze the git diff carefully and generate a professional, comprehensive commit message.\n\n"

def thoroughMid1 : String :=
  "## OUTPUT FORMAT (Conventional Commits):\n\n<type>(<scope>): <concise summary describing the main change>\n\n<paragraph explaining the motivation, context, and overall approach - 2-4 sentences>\n\nKey changes:\n- <specific technical change 1>\n- <specific technical change 2>\n- <specific technical change 3>\n- ... (list ALL significant changes)\n\n[Optional sections if applicable:]\n\nTesting:\n- <what was tested>\n\nFixes:\n- <specific bug/issue fixed>\n\nBreaking changes:\n- <what breaks and how to migrate>\n\n## COMMIT TYPES:\n- feat: New feature or significant enhancement\n- fix: Bug fix\n- refactor: Code restructuring without changing behavior\n- docs: Documentation only\n- style: Formatting, whitespace (no logic change)\n- test: Adding/updating tests\n- chore: Build, config, tooling changes\n- perf: Performance improvements\n\n"

def thoroughRules : String :=
  "## CRITICAL RULES:\n1. NEVER write generic messages like \x22Update files\x22 or \x22Make changes\x22\n2. The summary line must describe WHAT specifically changed (max 72 chars)\n3. Analyze the ACTUAL code changes - mention specific functions, components, variables\n4. Explain WHY the change was made, not just what files were touched\n5. Group related changes logically in the bullet points\n6. Use technical terminology appropriate to the codebase\n7. If there are multiple distinct changes, mention all of them\n8. Use present tense imperatives: \x22Add\x22, \x22Fix\x22, \x22Refactor\x22, \x22Update\x22\n9. Be specific: instead of \x22improve code\x22, say \x22extract validation logic into separate helper function\x22\n10. If the diff shows HTML/CSS/JS changes together, describe the feature being built, not just \x22update HTML, JS, CSS\x22\n\n"

def thoroughMid2 : String :=
  "## EXAMPLE OF GOOD COMMIT:\n\nrefactor(auth): simplify token validation and fix session handling\n\nRestructure authentication flow to improve maintainability and fix\nseveral edge cases in session management that caused users to be\nunexpectedly logged out.\n\nKey changes:\n- Extract token validation into dedicated validateToken() helper\n- Replace synchronous localStorage calls with async wrapper\n- Fix race condition in concurrent API requests during token refresh\n- Add null checks for user context in protected routes\n- Remove deprecated sessionStorage fallback code\n\nFixes:\n- Users no longer logged out when opening multiple tabs\n- Token refresh no longer fails silently on slow connections\n\n## GIT DIFF TO ANALYZE:\n\n"

def thoroughClose : String :=
  "\n\nGenerate the commit message now. Be thorough and specific."

def conciseRole : String :=
  "You are an expert developer writing git commit messages. Analyze the git diff and generate an appropriate commit message.\n\n"

def conciseMid1 : String :=
  "## IMPORTANT: SCALE MESSAGE SIZE TO CHANGE SIZE\n\n- SMALL changes (1-10 lines, simple edits): Just the summary line, no body needed\n- MEDIUM changes (10-50 lines, single feature): Summary + 1-2 sentence description\n- LARGE changes (50+ lines, multiple features): Full format with bullet points\n\nDo NOT over-explain simple changes. A one-line fix deserves a one-line commit message.\n\n## OUTPUT FORMAT (Conventional Commits):\n\nFor SMALL changes:\n<type>(<scope>): <concise summary describing the change>\n\nFor MEDIUM changes:\n<type>(<scope>): <concise summary>\n\n<1-2 sentences explaining the change>\n\nFor LARGE changes only:\n<type>(<scope>): <concise summary>\n\n<paragraph explaining motivation and approach>\n\nKey changes:\n- <change 1>\n- <change 2>\n- ...\n\n[Optional: Testing/Fixes/Breaking changes sections only if truly relevant]\n\n## COMMIT TYPES:\n- feat: New feature or significant enhancement\n- fix: Bug fix\n- refactor: Code restructuring without changing behavior\n- docs: Documentation only\n- style: Formatting, whitespace (no logic change)\n- test: Adding/updating tests\n- chore: Build, config, tooling changes\n- perf: Performance improvements\n\n"

def conciseRules : String :=
  "## CRITICAL RULES:\n1. MATCH commit message length to change complexity - small changes get short messages\n2. NEVER write generic messages like \x22Update files\x22 or \x22Make changes\x22\n3. Summary line: WHAT changed specifically (max 72 chars)\n4. Use present tense imperatives: \x22Add\x22, \x22Fix\x22, \x22Refactor\x22, \x22Update\x22\n5. Be specific but concise - don\x27t pad with unnecessary context\n6. OUTPUT PLAIN TEXT ONLY - no markdown formatting, no backticks around code names\n7. Do NOT repeat information or state the obvious\n8. Skip \x22Key changes\x22 section if there\x27s only 1-2 changes - just describe them in the summary\n\n"

def conciseMid2 : String :=
  "## EXAMPLES:\n\nSMALL change (good):\nfix(api): handle null response in getUserData\n\nMEDIUM change (good):\nfeat(auth): add remember-me checkbox to login form\n\nAdd persistent session option that stores auth token in localStorage\ninstead of sessionStorage when user checks \x22remember me\x22.\n\nLARGE change (good):\nrefactor(auth): simplify token validation and fix session handling\n\nRestructure authentication flow to improve maintainability and fix\nedge cases in session management.\n\nKey changes:\n- Extract token validation into validateToken() helper\n- Fix race condition in concurrent API requests during token refresh\n- Add null checks for user context in protected routes\n\n## GIT DIFF TO ANALYZE:\n\n"

def conciseClose : String :=
  "\n\nGenerate an appropriately sized commit message. Keep it concise."

/-- The role-framing opening text of each template variant. -/
def roleText : Style → String
  | .thorough => thoroughRole
  | .concise => conciseRole

/-- The rules block of each template variant. -/
def rulesText : Style → String
  | .thorough => thoroughRules
  | .concise => conciseRules

/-- Everything of the template before the interpolated diff. -/
def promptHead : Style → String
  | .thorough => ((thoroughRole ++ thoroughMid1) ++ thoroughRules) ++ thoroughMid2
  | .concise => ((conciseRole ++ conciseMid1) ++ conciseRules) ++ conciseMid2

/-- Everything of the template after the interpolated diff. -/
def promptTail : Style → String
  | .thorough => thoroughClose
  | .concise => conciseClose

/-- buildPrompt (src/lib/ai-providers.js lines 157 to 229 for the thorough
variant, the duplicated module lines 157 to 237 for the concise variant): the
fixed template with the diff interpolated verbatim between the labelled diff
section header and the closing instruction. -/
def buildPrompt (diff : String) (style : Style) : String :=
  (promptHead style ++ diff) ++ promptTail style

/-- One content block of the Anthropic response envelope. -/
structure ClaudeBlock where
  text : String
deriving DecidableEq, Repr

/-- The Anthropic success envelope: `message.content` is a list of blocks and
the code reads `content[0].text`. -/
structure ClaudeResponse where
  content : List ClaudeBlock
deriving DecidableEq, Repr

/-- The `message` object of one OpenAI choice. -/
structure OpenAIMessage where
  content : String
deriving DecidableEq, Repr

/-- One element of the OpenAI `choices` array. -/
structure OpenAIChoice where
  message : OpenAIMessage
deriving DecidableEq, Repr

/-- The OpenAI success envelope: the code reads
`choices[0].message.content`. -/
structure OpenAIResponse where
  choices : List OpenAIChoice
deriving DecidableEq, Repr

/-- One part of a Gemini candidate content. -/
structure GeminiPart where
  text : String
deriving DecidableEq, Repr

/-- The `content` object of a Gemini candidate. -/
structure GeminiContent where
  parts : List GeminiPart
deriving DecidableEq, Repr

/-- One element of the Gemini `candidates` array. -/
structure GeminiCandidate where
  content : GeminiContent
deriving DecidableEq, Repr

/-- The Gemini fetch response after `response.json()`: the HTTP `ok` flag, the
optional `error.message` field of the parsed body, and the `candidates`
array.  A body without candidates is modelled by the empty list; reading
through it fails exactly as the JavaScript property access does. -/
structure GeminiResponse where
  ok : Bool
  errorMessage : Option String
  candidates : List GeminiCandidate
deriving DecidableEq, Repr

/-- Outcome of one stubbed network call: either a response envelope or a
thrown transport or SDK error carrying a message. -/
inductive NetResult (α : Type) where
  | ok (resp : α)
  | err (msg : String)
deriving DecidableEq, Repr

/-- One stub per provider for the single network call dispatch may make. -/
structure NetStubs where
  claude : NetResult ClaudeResponse
  openai : NetResult OpenAIResponse
  gemini : NetResult GeminiResponse
deriving DecidableEq, Repr

/-- The errors thrown by the provider module, classified by throw site.  The
source throws plain `Error` objects; `GenError.message` reproduces the exact
message strings.  `missingCredential` corresponds to the MissingCredential
taxonomy entry of the specification, `unknownProvider` to UnknownBackend and
`apiError` to BackendRequestFailed. -/
inductive GenError where
  | missingCredential (vendor : String)
  | unknownProvider (provider : String)
  | apiError (vendor : String) (inner : String)
deriving DecidableEq, Repr

/-- The message string of the thrown `Error`, as interpolated in the
source. -/
def GenError.message : GenError → String
  | .missingCredential vendor => vendor ++ " API key not found"
  | .unknownProvider provider => "Unknown provider: " ++ provider
  | .apiError vendor inner => vendor ++ " API error: " ++ inner

/-- Result of a dispatch invocation: the returned string or the thrown
error. -/
inductive GenResult where
  | ok (message : String)
  | error (e : GenError)
deriving DecidableEq, Repr

/-- Console output of the dispatch pipeline: the large-diff truncation
advisory printed by generateCommitMessage, carrying the original length, the
applied limit and the provider name. -/
inductive LogEvent where
  | truncationWarning (originalLen : Nat) (limit : Nat) (provider : String)
deriving DecidableEq, Repr

/-- Observable outcome of one dispatch invocation: the returned value or
thrown error, the console advisories, the number of network calls attempted,
the prompts built, and the API keys handed to a network client. -/
structure DispatchResult where
  result : GenResult
  logs : List LogEvent
  netCalls : Nat
  prompts : List String
  keysUsed : List String
deriving DecidableEq, Repr

/-- Model of the runtime TypeError raised by reading a property of
`undefined`, as happens when an expected envelope field is missing. -/
def typeErrorMessage : String := "Cannot read properties of undefined"

/-- generateWithClaude (src/lib/ai-providers.js lines 45 to 69): resolve the
key from `config.apiKeys?.anthropic || process.env.ANTHROPIC_API_KEY`, throw
when falsy, otherwise build the prompt and make one network call, returning
the trimmed first content block or wrapping any thrown error. -/
def generateWithClaude (style : Style) (diff : String) (config : Config)
    (env : Env) (net : NetResult ClaudeResponse) : DispatchResult :=
  let apiKey := jsOr (config.apiKeys.bind (fun k => k.anthropic)) (env "ANTHROPIC_API_KEY")
  if truthy apiKey = false then
    ⟨.error (.missingCredential "Anthropic"), [], 0, [], []⟩
  else
    let key := apiKey.getD ""
    let prompt := buildPrompt diff style
    match net with
    | .err m => ⟨.error (.apiError "Claude" m), [], 1, [prompt], [key]⟩
    | .ok resp =>
      match resp.content with
      | [] => ⟨.error (.apiError "Claude" typeErrorMessage), [], 1, [prompt], [key]⟩
      | block :: _ => ⟨.ok (jsTrim block.text), [], 1, [prompt], [key]⟩

/-- generateWithOpenAI (src/lib/ai-providers.js lines 74 to 106): same shape
as the Anthropic path with the OpenAI envelope
`response.choices[0].message.content`. -/
def generateWithOpenAI (style : Style) (diff : String) (config : Config)
    (env : Env) (net : NetResult OpenAIResponse) : DispatchResult :=
  let apiKey := jsOr (config.apiKeys.bind (fun k => k.openai)) (env "OPENAI_API_KEY")
  if truthy apiKey = false then
    ⟨.error (.missingCredential "OpenAI"), [], 0, [], []⟩
  else
    let key := apiKey.getD ""
    let prompt := buildPrompt diff style
    match net with
    | .err m => ⟨.error (.apiError "OpenAI" m), [], 1, [prompt], [key]⟩
    | .ok resp =>
      match resp.choices with
      | [] => ⟨.error (.apiError "OpenAI" typeErrorMessage), [], 1, [prompt], [key]⟩
      | choice :: _ => ⟨.ok (jsTrim choice.message.content), [], 1, [prompt], [key]⟩

/-- The nested envelope read `data.candidates[0].content.parts[0].text` of the
Gemini path, as an optional value: `none` models the JavaScript TypeError on
a missing field. -/
def geminiExtract (r : GeminiResponse) : Option String :=
  match r.candidates with
  | [] => none
  | c :: _ =>
    match c.content.parts with
    | [] => none
    | part :: _ => some part.text

/-- generateWithGemini (src/lib/ai-providers.js lines 111 to 152): resolve
the key from `config.apiKeys?.gemini || process.env.GEMINI_API_KEY`, throw
when falsy, otherwise build the prompt and fetch.  Inside the try block a
non-ok HTTP status throws `data.error?.message || "Gemini API request
failed"`, which the catch then wraps like every other failure; on an ok
status the nested envelope field is read and trimmed. -/
def generateWithGemini (style : Style) (diff : String) (config : Config)
    (env : Env) (net : NetResult GeminiResponse) : DispatchResult :=
  let apiKey := jsOr (config.apiKeys.bind (fun k => k.gemini)) (env "GEMINI_API_KEY")
  if truthy apiKey = false then
    ⟨.error (.missingCredential "Gemini"), [], 0, [], []⟩
  else
    let key := apiKey.getD ""
    let prompt := buildPrompt diff style
    match net with
    | .err m => ⟨.error (.apiError "Gemini" m), [], 1, [prompt], [key]⟩
    | .ok r =>
      if r.ok = false then
        ⟨.error (.apiError "Gemini" (jsOrStr r.errorMessage "Gemini API request failed")),
          [], 1, [prompt], [key]⟩
      else
        match geminiExtract r with
        | none => ⟨.error (.apiError "Gemini" typeErrorMessage), [], 1, [prompt], [key]⟩
        | some t => ⟨.ok (jsTrim t), [], 1, [prompt], [key]⟩

/-- The diff-bounding step of generateCommitMessage (src/lib/ai-providers.js
lines 19 to 28): the applied limit, the bounded text, and whether the
truncation advisory fires. -/
structure BoundResult where
  limit : Nat
  text : String
  wasTruncated : Bool
deriving DecidableEq, Repr

/-- bound: limit lookup with default fallback, truncation by substring, and
the truncation flag, exactly as in generateCommitMessage lines 19 to 28. -/
def bound (diff : String) (provider : String) : BoundResult :=
  let limit := jsOrNat (DIFF_LIMITS provider) 50000
  ⟨limit, jsSubstring diff limit, decide (limit < diff.length)⟩

/-- Prepend console output to a dispatch result. -/
def withLogs (logs : List LogEvent) (r : DispatchResult) : DispatchResult :=
  ⟨r.result, logs ++ r.logs, r.netCalls, r.prompts, r.keysUsed⟩

/-- generateCommitMessage (src/lib/ai-providers.js lines 18 to 40): bound the
diff and print the advisory when it was truncated, then switch on the
provider, throwing on an unknown provider name.  Note the bounding and the
advisory happen before the switch. -/
def generateCommitMessage (style : Style) (diff : String) (provider : String)
    (config : Config) (env : Env) (net : NetStubs) : DispatchResult :=
  let b := bound diff provider
  let logs : List LogEvent :=
    if b.wasTruncated then [.truncationWarning diff.length b.limit provider] else []
  withLogs logs
    (if provider = "claude" then generateWithClaude style b.text config env net.claude
     else if provider = "openai" then generateWithOpenAI style b.text config env net.openai
     else if provider = "gemini" then generateWithGemini style b.text config env net.gemini
     else ⟨.error (.unknownProvider provider), [], 0, [], []⟩)

/-- The closed enumeration of supported provider identifiers. -/
def supportedProviders : List String := ["claude", "openai", "gemini"]

/-- The configuration secret the source reads for a given provider. -/
def configSecret (provider : String) (config : Config) : Option String :=
  if provider = "claude" then config.apiKeys.bind (fun k => k.anthropic)
  else if provider = "openai" then config.apiKeys.bind (fun k => k.openai)
  else if provider = "gemini" then config.apiKeys.bind (fun k => k.gemini)
  else none

/-- The environment variable name the source reads for a given provider. -/
def envVarName (provider : String) : String :=
  if provider = "claude" then "ANTHROPIC_API_KEY"
  else if provider = "openai" then "OPENAI_API_KEY"
  else if provider = "gemini" then "GEMINI_API_KEY"
  else ""

/-- The vendor name interpolated into the missing-credential message for a
given provider. -/
def missingName (provider : String) : String :=
  if provider = "claude" then "Anthropic"
  else if provider = "openai" then "OpenAI"
  else if provider = "gemini" then "Gemini"
  else ""

/-- The vendor name interpolated into the wrapped API error message for a
given provider. -/
def wrapName (provider : String) : String :=
  if provider = "claude" then "Claude"
  else if provider = "openai" then "OpenAI"
  else if provider = "gemini" then "Gemini"
  else ""

/-- The secret dispatch resolves for a provider: the configuration entry,
falling back to the environment variable under JavaScript truthiness. -/
def resolvedSecret (provider : String) (config : Config) (env : Env) : Option String :=
  jsOr (configSecret provider config) (env (envVarName provider))

/-- The transport-error component of the stub selected for a provider. -/
def netTransportError (provider : String) (net : NetStubs) : Option String :=
  if provider = "claude" then
    match net.claude with | .err m => some m | .ok _ => none
  else if provider = "openai" then
    match net.openai with | .err m => some m | .ok _ => none
  else if provider = "gemini" then
    match net.gemini with | .err m => some m | .ok _ => none
  else none

/-- Substring containment: `sub` occurs verbatim inside `s`. -/
def ContainsSubstr (s sub : String) : Prop := ∃ a b : String, s = (a ++ sub) ++ b

theorem length_mk (l : List Char) : (String.mk l).length = l.length := rfl

theorem data_append (a b : String) : (a ++ b).data = a.data ++ b.data := rfl

theorem empty_data : ("" : String).data = [] := rfl

theorem str_ext (a b : String) (h : a.data = b.data) : a = b :=
  congrArg String.mk h

theorem jsSubstring_length (s : String) (n : Nat) :
    (jsSubstring s n).length = min n s.length := by
  simp [jsSubstring, length_mk]

theorem jsSubstring_of_le (s : String) (n : Nat) (h : s.length ≤ n) :
    jsSubstring s n = s := by
  apply str_ext
  simp [jsSubstring]
  exact h

theorem jsSubstring_append_drop (s : String) (n : Nat) :
    jsSubstring s n ++ (⟨s.data.drop n⟩ : String) = s := by
  apply str_ext
  simp [jsSubstring, data_append]

/-- A diff of 25001 identical characters, one more than the gemini limit. -/
def gemDiff : String := ⟨List.replicate 25001 'a'⟩

theorem gemDiff_length : gemDiff.length = 25001 := by
  rw [gemDiff, length_mk, List.length_replicate]

theorem jsOr_of_truthy (a b : Option String) (h : truthy a = true) : jsOr a b = a := by
  simp [jsOr, h]

theorem jsOr_of_falsy (a b : Option String) (h : truthy a = false) : jsOr a b = b := by
  simp [jsOr, h]

theorem gcm_claude (style : Style) (d : String) (config : Config) (env : Env) (net : NetStubs) :
    generateCommitMessage style d "claude" config env net =
      withLogs (if (bound d "claude").wasTruncated
                then [.truncationWarning d.length 100000 "claude"] else [])
        (generateWithClaude style (bound d "claude").text config env net.claude) := rfl

theorem gcm_openai (style : Style) (d : String) (config : Config) (env : Env) (net : NetStubs) :
    generateCommitMessage style d "openai" config env net =
      withLogs (if (bound d "openai").wasTruncated
                then [.truncationWarning d.length 80000 "openai"] else [])
        (generateWithOpenAI style (bound d "openai").text config env net.openai) := rfl

theorem gcm_gemini (style : Style) (d : String) (config : Config) (env : Env) (net : NetStubs) :
    generateCommitMessage style d "gemini" config env net =
      withLogs (if (bound d "gemini").wasTruncated
                then [.truncationWarning d.length 25000 "gemini"] else [])
        (generateWithGemini style (bound d "gemini").text config env net.gemini) := rfl

theorem claude_missing (style : Style) (d : String) (config : Config) (env : Env)
    (net : NetResult ClaudeResponse) (h : truthy (resolvedSecret "claude" config env) = false) :
    generateWithClaude style d config env net =
      ⟨.error (.missingCredential "Anthropic"), [], 0, [], []⟩ := by
  have h' : truthy (jsOr (config.apiKeys.bind fun k => k.anthropic)
      (env "ANTHROPIC_API_KEY")) = false := h
  simp [generateWithClaude, h']

theorem claude_proceeds (style : Style) (d : String) (config : Config) (env : Env)
    (net : NetResult ClaudeResponse) (h : truthy (resolvedSecret "claude" config env) = true) :
    (generateWithClaude style d config env net).keysUsed =
        [(resolvedSecret "claude" config env).getD ""] ∧
    (generateWithClaude style d config env net).netCalls = 1 ∧
    (generateWithClaude style d config env net).prompts = [buildPrompt d style] ∧
    (generateWithClaude style d config env net).logs = [] := by
  have h' : truthy (jsOr (config.apiKeys.bind fun k => k.anthropic)
      (env "ANTHROPIC_API_KEY")) = true := h
  cases net with
  | err m => simp [generateWithClaude, h', resolvedSecret, configSecret, envVarName]
  | ok resp =>
    cases hr : resp.content with
    | nil => simp [generateWithClaude, h', hr, resolvedSecret, configSecret, envVarName]
    | cons b rest => simp [generateWithClaude, h', hr, resolvedSecret, configSecret, envVarName]

theorem claude_err (style : Style) (d : String) (config : Config) (env : Env) (m : String)
    (h : truthy (resolvedSecret "claude" config env) = true) :
    (generateWithClaude style d config env (.err m)).result =
      .error (.apiError "Claude" m) := by
  have h' : truthy (jsOr (config.apiKeys.bind fun k => k.anthropic)
      (env "ANTHROPIC_API_KEY")) = true := h
  simp [generateWithClaude, h']

theorem claude_envelope (style : Style) (d : String) (config : Config) (env : Env)
    (resp : ClaudeResponse) (h : truthy (resolvedSecret "claude" config env) = true) :
    (generateWithClaude style d config env (.ok resp)).result =
      (match resp.content with
       | [] => .error (.apiError "Claude" typeErrorMessage)
       | block :: _ => .ok (jsTrim block.text)) := by
  have h' : truthy (jsOr (config.apiKeys.bind fun k => k.anthropic)
      (env "ANTHROPIC_API_KEY")) = true := h
  cases hr : resp.content with
  | nil => simp [generateWithClaude, h', hr]
  | cons b rest => simp [generateWithClaude, h', hr]

theorem openai_missing (style : Style) (d : String) (config : Config) (env : Env)
    (net : NetResult OpenAIResponse) (h : truthy (resolvedSecret "openai" config env) = false) :
    generateWithOpenAI style d config env net =
      ⟨.error (.missingCredential "OpenAI"), [], 0, [], []⟩ := by
  have h' : truthy (jsOr (config.apiKeys.bind fun k => k.openai)
      (env "OPENAI_API_KEY")) = false := h
  simp [generateWithOpenAI, h']

theorem openai_proceeds (style : Style) (d : String) (config : Config) (env : Env)
    (net : NetResult OpenAIResponse) (h : truthy (resolvedSecret "openai" config env) = true) :
    (generateWithOpenAI style d config env net).keysUsed =
        [(resolvedSecret "openai" config env).getD ""] ∧
    (generateWithOpenAI style d config env net).netCalls = 1 ∧
    (generateWithOpenAI style d config env net).prompts = [buildPrompt d style] ∧
    (generateWithOpenAI style d config env net).logs = [] := by
  have h' : truthy (jsOr (config.apiKeys.bind fun k => k.openai)
      (env "OPENAI_API_KEY")) = true := h
  cases net with
  | err m => simp [generateWithOpenAI, h', resolvedSecret, configSecret, envVarName]
  | ok resp =>
    cases hr : resp.choices with
    | nil => simp [generateWithOpenAI, h', hr, resolvedSecret, configSecret, envVarName]
    | cons c rest => simp [generateWithOpenAI, h', hr, resolvedSecret, configSecret, envVarName]

theorem openai_err (style : Style) (d : String) (config : Config) (env : Env) (m : String)
    (h : truthy (resolvedSecret "openai" config env) = true) :
    (generateWithOpenAI style d config env (.err m)).result =
      .error (.apiError "OpenAI" m) := by
  have h' : truthy (jsOr (config.apiKeys.bind fun k => k.openai)
      (env "OPENAI_API_KEY")) = true := h
  simp [generateWithOpenAI, h']

theorem openai_envelope (style : Style) (d : String) (config : Config) (env : Env)
    (resp : OpenAIResponse) (h : truthy (resolvedSecret "openai" config env) = true) :
    (generateWithOpenAI style d config env (.ok resp)).result =
      (match resp.choices with
       | [] => .error (.apiError "OpenAI" typeErrorMessage)
       | choice :: _ => .ok (jsTrim choice.message.content)) := by
  have h' : truthy (jsOr (config.apiKeys.bind fun k => k.openai)
      (env "OPENAI_API_KEY")) = true := h
  cases hr : resp.choices with
  | nil => simp [generateWithOpenAI, h', hr]
  | cons c rest => simp [generateWithOpenAI, h', hr]

theorem gemini_missing (style : Style) (d : String) (config : Config) (env : Env)
    (net : NetResult GeminiResponse) (h : truthy (resolvedSecret "gemini" config env) = false) :
    generateWithGemini style d config env net =
      ⟨.error (.missingCredential "Gemini"), [], 0, [], []⟩ := by
  have h' : truthy (jsOr (config.apiKeys.bind fun k => k.gemini)
      (env "GEMINI_API_KEY")) = false := h
  simp [generateWithGemini, h']

theorem gemini_proceeds (style : Style) (d : String) (config : Config) (env : Env)
    (net : NetResult GeminiResponse) (h : truthy (resolvedSecret "gemini" config env) = true) :
    (generateWithGemini style d config env net).keysUsed =
        [(resolvedSecret "gemini" config env).getD ""] ∧
    (generateWithGemini style d config env net).netCalls = 1 ∧
    (generateWithGemini style d config env net).prompts = [buildPrompt d style] ∧
    (generateWithGemini style d config env net).logs = [] := by
  have h' : truthy (jsOr (config.apiKeys.bind fun k => k.gemini)
      (env "GEMINI_API_KEY")) = true := h
  cases net with
  | err m => simp [generateWithGemini, h', resolvedSecret, configSecret, envVarName]
  | ok r =>
    cases hok : r.ok with
    | false => simp [generateWithGemini, h', hok, resolvedSecret, configSecret, envVarName]
    | true =>
      cases hx : geminiExtract r with
      | none => simp [generateWithGemini, h', hok, hx, resolvedSecret, configSecret, envVarName]
      | some t => simp [generateWithGemini, h', hok, hx, resolvedSecret, configSecret, envVarName]

theorem gemini_err (style : Style) (d : String) (config : Config) (env : Env) (m : String)
    (h : truthy (resolvedSecret "gemini" config env) = true) :
    (generateWithGemini style d config env (.err m)).result =
      .error (.apiError "Gemini" m) := by
  have h' : truthy (jsOr (config.apiKeys.bind fun k => k.gemini)
      (env "GEMINI_API_KEY")) = true := h
  simp [generateWithGemini, h']

theorem gemini_http_fail (style : Style) (d : String) (config : Config) (env : Env)
    (r : GeminiResponse) (h : truthy (resolvedSecret "gemini" config env) = true)
    (hok : r.ok = false) :
    (generateWithGemini style d config env (.ok r)).result =
      .error (.apiError "Gemini" (jsOrStr r.errorMessage "Gemini API request failed")) := by
  have h' : truthy (jsOr (config.apiKeys.bind fun k => k.gemini)
      (env "GEMINI_API_KEY")) = true := h
  simp [generateWithGemini, h', hok]

theorem gemini_envelope (style : Style) (d : String) (config : Config) (env : Env)
    (r : GeminiResponse) (h : truthy (resolvedSecret "gemini" config env) = true)
    (hok : r.ok = true) :
    (generateWithGemini style d config env (.ok r)).result =
      (match geminiExtract r with
       | none => .error (.apiError "Gemini" typeErrorMessage)
       | some t => .ok (jsTrim t)) := by
  have h' : truthy (jsOr (config.apiKeys.bind fun k => k.gemini)
      (env "GEMINI_API_KEY")) = true := h
  cases hx : geminiExtract r with
  | none => simp [generateWithGemini, h', hok, hx]
  | some t => simp [generateWithGemini, h', hok, hx]

/-- C3: the per-backend character limits are claude 100000, openai 80000,
gemini 25000, with default constant 50000 for an unrecognized backend; when
the diff exceeds the limit, bounding flags truncation and returns exactly the
first limit characters (the result has length equal to the limit and is a
prefix of the original), otherwise it returns the text unchanged with no
truncation flag. -/
theorem bound_spec (d p : String) :
    ((bound d "claude").limit = 100000 ∧ (bound d "openai").limit = 80000 ∧
      (bound d "gemini").limit = 25000 ∧
      (p ∉ supportedProviders → (bound d p).limit = 50000)) ∧
    (d.length ≤ (bound d p).limit →
      (bound d p).text = d ∧ (bound d p).wasTruncated = false) ∧
    ((bound d p).limit < d.length →
      (bound d p).wasTruncated = true ∧
      (bound d p).text.length = (bound d p).limit ∧
      ∃ rest : String, (bound d p).text ++ rest = d) := by
  refine ⟨⟨rfl, rfl, rfl, ?_⟩, ?_, ?_⟩
  · intro hp
    simp [supportedProviders] at hp
    obtain ⟨h1, h2, h3⟩ := hp
    simp [bound, DIFF_LIMITS, jsOrNat, h1, h2, h3]
  · intro h
    refine ⟨jsSubstring_of_le d _ h, ?_⟩
    simp only [bound] at h ⊢
    simp only [decide_eq_false_iff_not]
    omega
  · intro h
    refine ⟨?_, ?_, ⟨⟨d.data.drop (bound d p).limit⟩, jsSubstring_append_drop d _⟩⟩
    · simp only [bound] at h ⊢
      simpa using h
    · show (jsSubstring d (bound d p).limit).length = (bound d p).limit
      rw [jsSubstring_length]
      omega

/-- Witness for C3 at concrete inputs: a short diff on claude is unchanged, a
25001-character diff on gemini is truncated to a 25000-character prefix, and
an unknown backend gets the default limit 50000. -/
theorem bound_spec_witness :
    ((bound "ab" "claude").text = "ab" ∧ (bound "ab" "claude").wasTruncated = false) ∧
    ((bound gemDiff "gemini").wasTruncated = true ∧
      (bound gemDiff "gemini").text.length = 25000 ∧
      ∃ rest : String, (bound gemDiff "gemini").text ++ rest = gemDiff) ∧
    (bound "x" "grok").limit = 50000 := by
  have hlim : (bound gemDiff "gemini").limit = 25000 := rfl
  have hlt : (bound gemDiff "gemini").limit < gemDiff.length := by
    rw [hlim, gemDiff_length]
    omega
  have h := (bound_spec gemDiff "gemini").2.2 hlt
  exact ⟨(bound_spec "ab" "claude").2.1 (by decide), ⟨h.1, hlim ▸ h.2.1, h.2.2⟩,
    (bound_spec "x" "grok").1.2.2.2 (by decide)⟩

/-- Concrete configuration with no apiKeys object at all. -/
def cfgNone : Config := ⟨none⟩

/-- Concrete configuration in the default shape written by loadConfig: all
three secrets present as empty strings. -/
def cfgEmptyKeys : Config := ⟨some ⟨some "", some "", some ""⟩⟩

/-- Concrete configuration with all three secrets set. -/
def cfgFull : Config := ⟨some ⟨some "cfg-anthropic", some "cfg-openai", some "cfg-gemini"⟩⟩

/-- Concrete empty environment. -/
def envNone : Env := fun _ => none

/-- Concrete environment with all three backend variables set. -/
def envFull : Env := fun n =>
  if n = "ANTHROPIC_API_KEY" then some "env-anthropic"
  else if n = "OPENAI_API_KEY" then some "env-openai"
  else if n = "GEMINI_API_KEY" then some "env-gemini"
  else none

/-- Concrete network stubs answering every backend with its documented
success envelope around a padded message. -/
def netOk : NetStubs :=
  ⟨.ok ⟨[⟨"  msg  "⟩]⟩, .ok ⟨[⟨⟨"  msg  "⟩⟩]⟩, .ok ⟨true, none, [⟨⟨[⟨"  msg  "⟩]⟩⟩]⟩⟩

/-- C1: for every supported backend, dispatch resolves the secret as the
configuration entry for that backend, falling back to the backend-specific
environment variable: when the configuration value is set it is the one
handed to the network client, when only the environment variable is set that
one is, and when neither is set dispatch throws the missing-credential error
naming the backend vendor and attempts no network call. -/
theorem credential_precedence (style : Style) (d p : String) (config : Config)
    (env : Env) (net : NetStubs) (hp : p ∈ supportedProviders) :
    (truthy (configSecret p config) = true →
      (generateCommitMessage style d p config env net).keysUsed =
        [(configSecret p config).getD ""]) ∧
    (truthy (configSecret p config) = false → truthy (env (envVarName p)) = true →
      (generateCommitMessage style d p config env net).keysUsed =
        [(env (envVarName p)).getD ""]) ∧
    (truthy (configSecret p config) = false → truthy (env (envVarName p)) = false →
      (generateCommitMessage style d p config env net).result =
          .error (.missingCredential (missingName p)) ∧
      (generateCommitMessage style d p config env net).netCalls = 0) := by
  simp only [supportedProviders, List.mem_cons, List.not_mem_nil, or_false] at hp
  rcases hp with h | h | h <;> subst h
  · refine ⟨?_, ?_, ?_⟩
    · intro hc
      have he : resolvedSecret "claude" config env = configSecret "claude" config :=
        jsOr_of_truthy _ _ hc
      have hr : truthy (resolvedSecret "claude" config env) = true := by rw [he]; exact hc
      rw [gcm_claude]
      have hk := (claude_proceeds style (bound d "claude").text config env net.claude hr).1
      simp [withLogs, hk, he]
    · intro hc henv
      have he : resolvedSecret "claude" config env = env (envVarName "claude") :=
        jsOr_of_falsy _ _ hc
      have hr : truthy (resolvedSecret "claude" config env) = true := by rw [he]; exact henv
      rw [gcm_claude]
      have hk := (claude_proceeds style (bound d "claude").text config env net.claude hr).1
      simp [withLogs, hk, he]
    · intro hc henv
      have he : resolvedSecret "claude" config env = env (envVarName "claude") :=
        jsOr_of_falsy _ _ hc
      have hr : truthy (resolvedSecret "claude" config env) = false := by rw [he]; exact henv
      rw [gcm_claude, claude_missing style _ config env net.claude hr]
      simp [withLogs, missingName]
  · refine ⟨?_, ?_, ?_⟩
    · intro hc
      have he : resolvedSecret "openai" config env = configSecret "openai" config :=
        jsOr_of_truthy _ _ hc
      have hr : truthy (resolvedSecret "openai" config env) = true := by rw [he]; exact hc
      rw [gcm_openai]
      have hk := (openai_proceeds style (bound d "openai").text config env net.openai hr).1
      simp [withLogs, hk, he]
    · intro hc henv
      have he : resolvedSecret "openai" config env = env (envVarName "openai") :=
        jsOr_of_falsy _ _ hc
      have hr : truthy (resolvedSecret "openai" config env) = true := by rw [he]; exact henv
      rw [gcm_openai]
      have hk := (openai_proceeds style (bound d "openai").text config env net.openai hr).1
      simp [withLogs, hk, he]
    · intro hc henv
      have he : resolvedSecret "openai" config env = env (envVarName "openai") :=
        jsOr_of_falsy _ _ hc
      have hr : truthy (resolvedSecret "openai" config env) = false := by rw [he]; exact henv
      rw [gcm_openai, openai_missing style _ config env net.openai hr]
      simp [withLogs, missingName]
  · refine ⟨?_, ?_, ?_⟩
    · intro hc
      have he : resolvedSecret "gemini" config env = configSecret "gemini" config :=
        jsOr_of_truthy _ _ hc
      have hr : truthy (resolvedSecret "gemini" config env) = true := by rw [he]; exact hc
      rw [gcm_gemini]
      have hk := (gemini_proceeds style (bound d "gemini").text config env net.gemini hr).1
      simp [withLogs, hk, he]
    · intro hc henv
      have he : resolvedSecret "gemini" config env = env (envVarName "gemini") :=
        jsOr_of_falsy _ _ hc
      have hr : truthy (resolvedSecret "gemini" config env) = true := by rw [he]; exact henv
      rw [gcm_gemini]
      have hk := (gemini_proceeds style (bound d "gemini").text config env net.gemini hr).1
      simp [withLogs, hk, he]
    · intro hc henv
      have he : resolvedSecret "gemini" config env = env (envVarName "gemini") :=
        jsOr_of_falsy _ _ hc
      have hr : truthy (resolvedSecret "gemini" config env) = false := by rw [he]; exact henv
      rw [gcm_gemini, gemini_missing style _ config env net.gemini hr]
      simp [withLogs, missingName]

/-- Witness for C1: with both sources set the configuration key is handed to
the claude client; with an empty configuration secret the environment key is
handed to the openai client; with neither set the gemini dispatch throws the
missing-credential error and makes no network call. -/
theorem credential_precedence_witness :
    (generateCommitMessage .thorough "dd" "claude" cfgFull envFull netOk).keysUsed =
        ["cfg-anthropic"] ∧
    (generateCommitMessage .thorough "dd" "openai" cfgEmptyKeys envFull netOk).keysUsed =
        ["env-openai"] ∧
    (generateCommitMessage .thorough "dd" "gemini" cfgEmptyKeys envNone netOk).result =
        .error (.missingCredential "Gemini") ∧
    (generateCommitMessage .thorough "dd" "gemini" cfgEmptyKeys envNone netOk).netCalls = 0 := by
  have h1 := (credential_precedence .thorough "dd" "claude" cfgFull envFull netOk
    (by decide)).1 (by decide)
  have h2 := (credential_precedence .thorough "dd" "openai" cfgEmptyKeys envFull netOk
    (by decide)).2.1 (by decide) (by decide)
  have h3 := (credential_precedence .thorough "dd" "gemini" cfgEmptyKeys envNone netOk
    (by decide)).2.2 (by decide) (by decide)
  exact ⟨h1, h2, h3.1, h3.2⟩

theorem dispatch_proceeds (style : Style) (d p : String) (config : Config) (env : Env)
    (net : NetStubs) (hp : p ∈ supportedProviders)
    (hr : truthy (resolvedSecret p config env) = true) :
    (generateCommitMessage style d p config env net).keysUsed =
        [(resolvedSecret p config env).getD ""] ∧
    (generateCommitMessage style d p config env net).netCalls = 1 ∧
    (generateCommitMessage style d p config env net).prompts =
        [buildPrompt (bound d p).text style] ∧
    (generateCommitMessage style d p config env net).logs =
        (if (bound d p).wasTruncated
         then [.truncationWarning d.length (bound d p).limit p] else []) := by
  simp only [supportedProviders, List.mem_cons, List.not_mem_nil, or_false] at hp
  rcases hp with h | h | h <;> subst h
  · rw [gcm_claude]
    have hk := claude_proceeds style (bound d "claude").text config env net.claude hr
    simp [withLogs, hk.1, hk.2.1, hk.2.2.1, hk.2.2.2,
      show (bound d "claude").limit = 100000 from rfl]
  · rw [gcm_openai]
    have hk := openai_proceeds style (bound d "openai").text config env net.openai hr
    simp [withLogs, hk.1, hk.2.1, hk.2.2.1, hk.2.2.2,
      show (bound d "openai").limit = 80000 from rfl]
  · rw [gcm_gemini]
    have hk := gemini_proceeds style (bound d "gemini").text config env net.gemini hr
    simp [withLogs, hk.1, hk.2.1, hk.2.2.1, hk.2.2.2,
      show (bound d "gemini").limit = 25000 from rfl]

theorem dispatch_missing (style : Style) (d p : String) (config : Config) (env : Env)
    (net : NetStubs) (hp : p ∈ supportedProviders)
    (hr : truthy (resolvedSecret p config env) = false) :
    (generateCommitMessage style d p config env net).result =
        .error (.missingCredential (missingName p)) ∧
    (generateCommitMessage style d p config env net).netCalls = 0 ∧
    (generateCommitMessage style d p config env net).keysUsed = [] ∧
    (generateCommitMessage style d p config env net).prompts = [] := by
  simp only [supportedProviders, List.mem_cons, List.not_mem_nil, or_false] at hp
  rcases hp with h | h | h <;> subst h
  · rw [gcm_claude, claude_missing style _ config env net.claude hr]
    simp [withLogs, missingName]
  · rw [gcm_openai, openai_missing style _ config env net.openai hr]
    simp [withLogs, missingName]
  · rw [gcm_gemini, gemini_missing style _ config env net.gemini hr]
    simp [withLogs, missingName]

/-- C9: when the configuration holds the empty string as a backend secret
(the default configuration shape), credential resolution falls through to the
environment variable; the missing-credential error is raised only when the
environment variable is also unset or empty. -/
theorem empty_config_secret (style : Style) (d p : String) (config : Config) (env : Env)
    (net : NetStubs) (hp : p ∈ supportedProviders)
    (hcfg : configSecret p config = some "") :
    (truthy (env (envVarName p)) = true →
      (generateCommitMessage style d p config env net).keysUsed =
          [(env (envVarName p)).getD ""] ∧
      (generateCommitMessage style d p config env net).netCalls = 1) ∧
    (truthy (env (envVarName p)) = false →
      (generateCommitMessage style d p config env net).result =
          .error (.missingCredential (missingName p)) ∧
      (generateCommitMessage style d p config env net).netCalls = 0) := by
  have hcf : truthy (configSecret p config) = false := by rw [hcfg]; rfl
  have he : resolvedSecret p config env = env (envVarName p) := jsOr_of_falsy _ _ hcf
  constructor
  · intro henv
    have hr : truthy (resolvedSecret p config env) = true := by rw [he]; exact henv
    have h := dispatch_proceeds style d p config env net hp hr
    exact ⟨he ▸ h.1, h.2.1⟩
  · intro henv
    have hr : truthy (resolvedSecret p config env) = false := by rw [he]; exact henv
    have h := dispatch_missing style d p config env net hp hr
    exact ⟨h.1, h.2.1⟩

/-- Witness for C9: with the default empty-string secrets, the claude
dispatch uses the environment key when one is set, and throws the
missing-credential error with no network call when the environment is
empty. -/
theorem empty_config_secret_witness :
    (generateCommitMessage .thorough "dd" "claude" cfgEmptyKeys envFull netOk).keysUsed =
        ["env-anthropic"] ∧
    (generateCommitMessage .thorough "dd" "claude" cfgEmptyKeys envNone netOk).result =
        .error (.missingCredential "Anthropic") ∧
    (generateCommitMessage .thorough "dd" "claude" cfgEmptyKeys envNone netOk).netCalls = 0 := by
  have h1 := (empty_config_secret .thorough "dd" "claude" cfgEmptyKeys envFull netOk
    (by decide) (by decide)).1 (by decide)
  have h2 := (empty_config_secret .thorough "dd" "claude" cfgEmptyKeys envNone netOk
    (by decide) (by decide)).2 (by decide)
  exact ⟨h1.1, h2.1, h2.2⟩

/-- C8: for the empty diff, bounding returns it unchanged with no truncation
flag, buildPrompt renders the complete fixed template around an empty diff
section, and dispatch with a resolvable secret proceeds to the backend call
with no error raised at this layer and no advisory printed. -/
theorem empty_diff_flows (style : Style) (p : String) (config : Config) (env : Env)
    (net : NetStubs) (hp : p ∈ supportedProviders)
    (hr : truthy (resolvedSecret p config env) = true) :
    (bound "" p).text = "" ∧ (bound "" p).wasTruncated = false ∧
    buildPrompt "" style = promptHead style ++ promptTail style ∧
    (generateCommitMessage style "" p config env net).netCalls = 1 ∧
    (generateCommitMessage style "" p config env net).prompts =
        [promptHead style ++ promptTail style] ∧
    (generateCommitMessage style "" p config env net).logs = [] := by
  have hb1 : (bound "" p).text = "" := by
    apply str_ext
    simp [bound, jsSubstring]
  have hb2 : (bound "" p).wasTruncated = false := by
    show decide (jsOrNat (DIFF_LIMITS p) 50000 < ("" : String).length) = false
    rw [show ("" : String).length = 0 from rfl]
    simp
  have hprompt : buildPrompt "" style = promptHead style ++ promptTail style := by
    apply str_ext
    simp [buildPrompt, data_append, empty_data]
  have h := dispatch_proceeds style "" p config env net hp hr
  refine ⟨hb1, hb2, hprompt, h.2.1, ?_, ?_⟩
  · rw [h.2.2.1, hb1, hprompt]
  · rw [h.2.2.2, hb2]
    simp

/-- Witness for C8: empty diff on gemini with a configured key attempts the
network call, builds the complete concise template, and logs nothing. -/
theorem empty_diff_flows_witness :
    (bound "" "gemini").text = "" ∧ (bound "" "gemini").wasTruncated = false ∧
    buildPrompt "" .concise = promptHead .concise ++ promptTail .concise ∧
    (generateCommitMessage .concise "" "gemini" cfgFull envNone netOk).netCalls = 1 ∧
    (generateCommitMessage .concise "" "gemini" cfgFull envNone netOk).prompts =
        [promptHead .concise ++ promptTail .concise] ∧
    (generateCommitMessage .concise "" "gemini" cfgFull envNone netOk).logs = [] :=
  empty_diff_flows .concise "gemini" cfgFull envNone netOk (by decide) (by decide)

/-- C4: given each backend's documented success envelope around the same
inner text, dispatch returns exactly the trimmed inner text, and the returned
value is identical across the three backends. -/
theorem response_normalization (style : Style) (d t : String) (config : Config)
    (env : Env) (net : NetStubs)
    (h1 : truthy (resolvedSecret "claude" config env) = true)
    (h2 : truthy (resolvedSecret "openai" config env) = true)
    (h3 : truthy (resolvedSecret "gemini" config env) = true)
    (hc : net.claude = .ok ⟨[⟨t⟩]⟩)
    (ho : net.openai = .ok ⟨[⟨⟨t⟩⟩]⟩)
    (hg : net.gemini = .ok ⟨true, none, [⟨⟨[⟨t⟩]⟩⟩]⟩) :
    (generateCommitMessage style d "claude" config env net).result = .ok (jsTrim t) ∧
    (generateCommitMessage style d "openai" config env net).result = .ok (jsTrim t) ∧
    (generateCommitMessage style d "gemini" config env net).result = .ok (jsTrim t) := by
  refine ⟨?_, ?_, ?_⟩
  · rw [gcm_claude]
    show (generateWithClaude style (bound d "claude").text config env net.claude).result =
      .ok (jsTrim t)
    rw [hc]
    exact claude_envelope style _ config env ⟨[⟨t⟩]⟩ h1
  · rw [gcm_openai]
    show (generateWithOpenAI style (bound d "openai").text config env net.openai).result =
      .ok (jsTrim t)
    rw [ho]
    exact openai_envelope style _ config env ⟨[⟨⟨t⟩⟩]⟩ h2
  · rw [gcm_gemini]
    show (generateWithGemini style (bound d "gemini").text config env net.gemini).result =
      .ok (jsTrim t)
    rw [hg]
    exact gemini_envelope style _ config env ⟨true, none, [⟨⟨[⟨t⟩]⟩⟩]⟩ h3 rfl

/-- Witness for C4: with the success envelopes around the padded text, all
three backends return the same trimmed message. -/
theorem response_normalization_witness :
    (generateCommitMessage .thorough "dd" "claude" cfgFull envNone netOk).result = .ok "msg" ∧
    (generateCommitMessage .thorough "dd" "openai" cfgFull envNone netOk).result = .ok "msg" ∧
    (generateCommitMessage .thorough "dd" "gemini" cfgFull envNone netOk).result = .ok "msg" := by
  have h := response_normalization .thorough "dd" "  msg  " cfgFull envNone netOk
    (by decide) (by decide) (by decide) rfl rfl rfl
  exact ⟨h.1.trans (by decide), h.2.1.trans (by decide), h.2.2.trans (by decide)⟩

/-- C10: a well-formed success envelope whose inner text trims to nothing
yields the empty string as a successful result on every backend; no error is
raised for a blank generated message. -/
theorem blank_message_success (style : Style) (d t : String) (config : Config)
    (env : Env) (net : NetStubs) (ht : jsTrim t = "")
    (h1 : truthy (resolvedSecret "claude" config env) = true)
    (h2 : truthy (resolvedSecret "openai" config env) = true)
    (h3 : truthy (resolvedSecret "gemini" config env) = true)
    (hc : net.claude = .ok ⟨[⟨t⟩]⟩)
    (ho : net.openai = .ok ⟨[⟨⟨t⟩⟩]⟩)
    (hg : net.gemini = .ok ⟨true, none, [⟨⟨[⟨t⟩]⟩⟩]⟩) :
    (generateCommitMessage style d "claude" config env net).result = .ok "" ∧
    (generateCommitMessage style d "openai" config env net).result = .ok "" ∧
    (generateCommitMessage style d "gemini" config env net).result = .ok "" := by
  refine ⟨?_, ?_, ?_⟩
  · rw [gcm_claude]
    show (generateWithClaude style (bound d "claude").text config env net.claude).result =
      .ok ""
    rw [hc, claude_envelope style _ config env ⟨[⟨t⟩]⟩ h1]
    exact congrArg GenResult.ok ht
  · rw [gcm_openai]
    show (generateWithOpenAI style (bound d "openai").text config env net.openai).result =
      .ok ""
    rw [ho, openai_envelope style _ config env ⟨[⟨⟨t⟩⟩]⟩ h2]
    exact congrArg GenResult.ok ht
  · rw [gcm_gemini]
    show (generateWithGemini style (bound d "gemini").text config env net.gemini).result =
      .ok ""
    rw [hg, gemini_envelope style _ config env ⟨true, none, [⟨⟨[⟨t⟩]⟩⟩]⟩ h3 rfl]
    exact congrArg GenResult.ok ht

/-- Network stubs whose envelopes all carry whitespace-only inner text. -/
def netBlank : NetStubs :=
  ⟨.ok ⟨[⟨"   "⟩]⟩, .ok ⟨[⟨⟨"   "⟩⟩]⟩, .ok ⟨true, none, [⟨⟨[⟨"   "⟩]⟩⟩]⟩⟩

/-- Witness for C10: whitespace-only envelopes give the empty string as a
successful result on all three backends. -/
theorem blank_message_success_witness :
    (generateCommitMessage .thorough "dd" "claude" cfgFull envNone netBlank).result = .ok "" ∧
    (generateCommitMessage .thorough "dd" "openai" cfgFull envNone netBlank).result = .ok "" ∧
    (generateCommitMessage .thorough "dd" "gemini" cfgFull envNone netBlank).result = .ok "" :=
  blank_message_success .thorough "dd" "   " cfgFull envNone netBlank (by decide)
    (by decide) (by decide) (by decide) rfl rfl rfl

/-- C5: on the gemini backend a non-2xx response whose parsed body carries an
error message field is rejected as a wrapped backend failure carrying that
message, with arbitrary candidates in the body: the ok check precedes any
read of the success envelope. -/
theorem gemini_status_error (style : Style) (d m : String) (config : Config)
    (env : Env) (net : NetStubs) (r : GeminiResponse)
    (hk : truthy (resolvedSecret "gemini" config env) = true)
    (hnet : net.gemini = .ok r) (hok : r.ok = false)
    (hm : r.errorMessage = some m) (hm0 : m ≠ "") :
    (generateCommitMessage style d "gemini" config env net).result =
        .error (.apiError "Gemini" m) ∧
    GenError.message (.apiError "Gemini" m) = "Gemini API error: " ++ m := by
  refine ⟨?_, rfl⟩
  rw [gcm_gemini]
  show (generateWithGemini style (bound d "gemini").text config env net.gemini).result =
    .error (.apiError "Gemini" m)
  rw [hnet, gemini_http_fail style _ config env r hk hok]
  have : jsOrStr r.errorMessage "Gemini API request failed" = m := by
    rw [hm]
    simp [jsOrStr, truthy, hm0]
  rw [this]

/-- Network stubs where gemini answers with HTTP failure status and a parsed
error body that still contains a syntactically valid candidates array. -/
def netGemFail : NetStubs :=
  ⟨.ok ⟨[⟨"x"⟩]⟩, .ok ⟨[⟨⟨"x"⟩⟩]⟩,
   .ok ⟨false, some "quota exceeded", [⟨⟨[⟨"ignored"⟩]⟩⟩]⟩⟩

/-- Witness for C5: a non-2xx gemini response carrying a quota message is
wrapped as a Gemini API error with that message even though the body also
holds a well-formed candidate. -/
theorem gemini_status_error_witness :
    (generateCommitMessage .thorough "dd" "gemini" cfgFull envNone netGemFail).result =
        .error (.apiError "Gemini" "quota exceeded") ∧
    GenError.message (.apiError "Gemini" "quota exceeded") =
        "Gemini API error: " ++ "quota exceeded" :=
  gemini_status_error .thorough "dd" "quota exceeded" cfgFull envNone netGemFail
    ⟨false, some "quota exceeded", [⟨⟨[⟨"ignored"⟩]⟩⟩]⟩ (by decide) rfl rfl rfl (by decide)

theorem claude_ok_shape (style : Style) (d : String) (config : Config) (env : Env)
    (net : NetResult ClaudeResponse) (s : String)
    (h : (generateWithClaude style d config env net).result = .ok s) :
    ∃ t, s = jsTrim t := by
  by_cases hk : truthy (resolvedSecret "claude" config env) = true
  · cases net with
    | err m =>
      rw [claude_err style d config env m hk] at h
      exact absurd h (by simp)
    | ok resp =>
      obtain ⟨content⟩ := resp
      cases content with
      | nil =>
        have h' : GenResult.error (.apiError "Claude" typeErrorMessage) = .ok s :=
          (claude_envelope style d config env ⟨[]⟩ hk).symm.trans h
        exact absurd h' (by simp)
      | cons b rest =>
        have h' : GenResult.ok (jsTrim b.text) = .ok s :=
          (claude_envelope style d config env ⟨b :: rest⟩ hk).symm.trans h
        refine ⟨b.text, ?_⟩
        injection h' with hh
        exact hh.symm
  · rw [claude_missing style d config env net (by simpa using hk)] at h
    exact absurd h (by simp)

theorem openai_ok_shape (style : Style) (d : String) (config : Config) (env : Env)
    (net : NetResult OpenAIResponse) (s : String)
    (h : (generateWithOpenAI style d config env net).result = .ok s) :
    ∃ t, s = jsTrim t := by
  by_cases hk : truthy (resolvedSecret "openai" config env) = true
  · cases net with
    | err m =>
      rw [openai_err style d config env m hk] at h
      exact absurd h (by simp)
    | ok resp =>
      obtain ⟨choices⟩ := resp
      cases choices with
      | nil =>
        have h' : GenResult.error (.apiError "OpenAI" typeErrorMessage) = .ok s :=
          (openai_envelope style d config env ⟨[]⟩ hk).symm.trans h
        exact absurd h' (by simp)
      | cons c rest =>
        have h' : GenResult.ok (jsTrim c.message.content) = .ok s :=
          (openai_envelope style d config env ⟨c :: rest⟩ hk).symm.trans h
        refine ⟨c.message.content, ?_⟩
        injection h' with hh
        exact hh.symm
  · rw [openai_missing style d config env net (by simpa using hk)] at h
    exact absurd h (by simp)

theorem gemini_ok_shape (style : Style) (d : String) (config : Config) (env : Env)
    (net : NetResult GeminiResponse) (s : String)
    (h : (generateWithGemini style d config env net).result = .ok s) :
    ∃ t, s = jsTrim t := by
  by_cases hk : truthy (resolvedSecret "gemini" config env) = true
  · cases net with
    | err m =>
      rw [gemini_err style d config env m hk] at h
      exact absurd h (by simp)
    | ok r =>
      cases hok : r.ok with
      | false =>
        rw [gemini_http_fail style d config env r hk hok] at h
        exact absurd h (by simp)
      | true =>
        rw [gemini_envelope style d config env r hk hok] at h
        cases hx : geminiExtract r with
        | none =>
          rw [hx] at h
          exact absurd h (by simp)
        | some t =>
          rw [hx] at h
          refine ⟨t, ?_⟩
          have h' : GenResult.ok (jsTrim t) = .ok s := h
          injection h' with hh
          exact hh.symm
  · rw [gemini_missing style d config env net (by simpa using hk)] at h
    exact absurd h (by simp)

/-- C6: with a resolvable secret, dispatch on a supported backend classifies
every network outcome: a transport error is wrapped as a backend failure
carrying the backend name and the underlying message, a malformed envelope
(missing expected field) is wrapped likewise with the runtime TypeError, and
every successful return is the complete trimmed inner text of a well-formed
envelope; no partial result exists.  Together with the error type, dispatch
always yields either a complete trimmed string or one of the three errors of
the taxonomy. -/
theorem uniform_failure_contract (style : Style) (d p : String) (config : Config)
    (env : Env) (net : NetStubs) (hp : p ∈ supportedProviders)
    (hk : truthy (resolvedSecret p config env) = true) :
    (∀ m, netTransportError p net = some m →
      (generateCommitMessage style d p config env net).result =
        .error (.apiError (wrapName p) m)) ∧
    (∀ s, (generateCommitMessage style d p config env net).result = .ok s →
      ∃ t, s = jsTrim t) ∧
    (∀ resp, p = "claude" → net.claude = .ok resp → resp.content = [] →
      (generateCommitMessage style d p config env net).result =
        .error (.apiError "Claude" typeErrorMessage)) ∧
    (∀ resp, p = "openai" → net.openai = .ok resp → resp.choices = [] →
      (generateCommitMessage style d p config env net).result =
        .error (.apiError "OpenAI" typeErrorMessage)) ∧
    (∀ r, p = "gemini" → net.gemini = .ok r → r.ok = true → geminiExtract r = none →
      (generateCommitMessage style d p config env net).result =
        .error (.apiError "Gemini" typeErrorMessage)) := by
  simp only [supportedProviders, List.mem_cons, List.not_mem_nil, or_false] at hp
  rcases hp with h | h | h <;> subst h
  · refine ⟨?_, ?_, ?_, ?_, ?_⟩
    · intro m hm
      cases hcl : net.claude with
      | err m' =>
        have hmm : m' = m := by
          simpa [netTransportError, hcl] using hm
        subst hmm
        rw [gcm_claude]
        show (generateWithClaude style (bound d "claude").text config env net.claude).result = _
        rw [hcl]
        exact claude_err style _ config env m' hk
      | ok resp =>
        simp [netTransportError, hcl] at hm
    · intro s hs
      exact claude_ok_shape style (bound d "claude").text config env net.claude s hs
    · intro resp _ hnet hcont
      obtain ⟨content⟩ := resp
      cases content with
      | nil =>
        rw [gcm_claude]
        show (generateWithClaude style (bound d "claude").text config env net.claude).result = _
        rw [hnet]
        exact claude_envelope style _ config env ⟨[]⟩ hk
      | cons b rest => simp at hcont
    · intro resp hpe
      exact absurd hpe (by decide)
    · intro r hpe
      exact absurd hpe (by decide)
  · refine ⟨?_, ?_, ?_, ?_, ?_⟩
    · intro m hm
      cases hcl : net.openai with
      | err m' =>
        have hmm : m' = m := by
          simpa [netTransportError, hcl] using hm
        subst hmm
        rw [gcm_openai]
        show (generateWithOpenAI style (bound d "openai").text config env net.openai).result = _
        rw [hcl]
        exact openai_err style _ config env m' hk
      | ok resp =>
        simp [netTransportError, hcl] at hm
    · intro s hs
      exact openai_ok_shape style (bound d "openai").text config env net.openai s hs
    · intro resp hpe
      exact absurd hpe (by decide)
    · intro resp _ hnet hcont
      obtain ⟨choices⟩ := resp
      cases choices with
      | nil =>
        rw [gcm_openai]
        show (generateWithOpenAI style (bound d "openai").text config env net.openai).result = _
        rw [hnet]
        exact openai_envelope style _ config env ⟨[]⟩ hk
      | cons c rest => simp at hcont
    · intro r hpe
      exact absurd hpe (by decide)
  · refine ⟨?_, ?_, ?_, ?_, ?_⟩
    · intro m hm
      cases hcl : net.gemini with
      | err m' =>
        have hmm : m' = m := by
          simpa [netTransportError, hcl] using hm
        subst hmm
        rw [gcm_gemini]
        show (generateWithGemini style (bound d "gemini").text config env net.gemini).result = _
        rw [hcl]
        exact gemini_err style _ config env m' hk
      | ok resp =>
        simp [netTransportError, hcl] at hm
    · intro s hs
      exact gemini_ok_shape style (bound d "gemini").text config env net.gemini s hs
    · intro resp hpe
      exact absurd hpe (by decide)
    · intro resp hpe
      exact absurd hpe (by decide)
    · intro r _ hnet hok hx
      rw [gcm_gemini]
      show (generateWithGemini style (bound d "gemini").text config env net.gemini).result = _
      rw [hnet, gemini_envelope style _ config env r hk hok, hx]

/-- Network stubs where claude fails at the transport level and gemini
returns a success status with an empty candidates array. -/
def netErrStub : NetStubs := ⟨.err "boom", .ok ⟨[]⟩, .ok ⟨true, none, []⟩⟩

/-- Witness for C6: a transport error on claude is wrapped with the backend
name and underlying message, an empty choices array on openai is wrapped as
the runtime TypeError, and an empty candidates array on gemini likewise. -/
theorem uniform_failure_contract_witness :
    (generateCommitMessage .thorough "dd" "claude" cfgFull envNone netErrStub).result =
        .error (.apiError "Claude" "boom") ∧
    (generateCommitMessage .thorough "dd" "openai" cfgFull envNone netErrStub).result =
        .error (.apiError "OpenAI" typeErrorMessage) ∧
    (generateCommitMessage .thorough "dd" "gemini" cfgFull envNone netErrStub).result =
        .error (.apiError "Gemini" typeErrorMessage) :=
  ⟨(uniform_failure_contract .thorough "dd" "claude" cfgFull envNone netErrStub
      (by decide) (by decide)).1 "boom" rfl,
   (uniform_failure_contract .thorough "dd" "openai" cfgFull envNone netErrStub
      (by decide) (by decide)).2.2.2.1 ⟨[]⟩ rfl rfl rfl,
   (uniform_failure_contract .thorough "dd" "gemini" cfgFull envNone netErrStub
      (by decide) (by decide)).2.2.2.2 ⟨true, none, []⟩ rfl rfl rfl rfl⟩

/-- A diff of 50001 identical characters, one more than the default limit. -/
def bigDiff : String := ⟨List.replicate 50001 'a'⟩

theorem bigDiff_length : bigDiff.length = 50001 := by
  rw [bigDiff, length_mk, List.length_replicate]

theorem gcm_unknown (style : Style) (d p : String) (config : Config) (env : Env)
    (net : NetStubs) (h1 : p ≠ "claude") (h2 : p ≠ "openai") (h3 : p ≠ "gemini") :
    generateCommitMessage style d p config env net =
      ⟨.error (.unknownProvider p),
       (if 50000 < d.length then [.truncationWarning d.length 50000 p] else []),
       0, [], []⟩ := by
  have hl : jsOrNat (DIFF_LIMITS p) 50000 = 50000 := by
    simp [DIFF_LIMITS, jsOrNat, h1, h2, h3]
  simp [generateCommitMessage, withLogs, bound, h1, h2, h3, hl]

/-- Counterexample to C2 as stated: dispatching a 50001-character diff to the
unknown backend grok does raise the unknown-provider error, but bounding has
been performed first: the truncation advisory for the default 50000-character
limit is emitted, contradicting that no bounding happens. -/
theorem unknown_backend_counterexample :
    (generateCommitMessage .thorough bigDiff "grok" cfgNone envNone netOk).result =
        .error (.unknownProvider "grok") ∧
    (generateCommitMessage .thorough bigDiff "grok" cfgNone envNone netOk).logs =
        [.truncationWarning 50001 50000 "grok"] := by
  rw [gcm_unknown .thorough bigDiff "grok" cfgNone envNone netOk
    (by decide) (by decide) (by decide)]
  have h5 : 50000 < bigDiff.length := by
    rw [bigDiff_length]
    omega
  refine ⟨rfl, ?_⟩
  simp only [if_pos h5, bigDiff_length]
  norm_num

/-- C2 amended: for a backendId outside the enumeration, dispatch raises the
unknown-provider error and performs no prompt construction and no network
call; however, bounding to the default 50000-character limit is performed
before the rejection, its truncation advisory being emitted exactly when the
diff exceeds that limit. -/
theorem unknown_backend_amended (style : Style) (d p : String) (config : Config)
    (env : Env) (net : NetStubs) (hp : p ∉ supportedProviders) :
    (generateCommitMessage style d p config env net).result =
        .error (.unknownProvider p) ∧
    (generateCommitMessage style d p config env net).prompts = [] ∧
    (generateCommitMessage style d p config env net).netCalls = 0 ∧
    (generateCommitMessage style d p config env net).logs =
      (if 50000 < d.length then [.truncationWarning d.length 50000 p] else []) := by
  simp only [supportedProviders, List.mem_cons, List.not_mem_nil, or_false, not_or] at hp
  obtain ⟨h1, h2, h3⟩ := hp
  refine ⟨?_, ?_, ?_, ?_⟩
  · simp [generateCommitMessage, withLogs, h1, h2, h3]
  · simp [generateCommitMessage, withLogs, h1, h2, h3]
  · simp [generateCommitMessage, withLogs, h1, h2, h3]
  · simp only [generateCommitMessage, withLogs, h1, h2, h3, if_false,
      List.append_nil, bound]
    by_cases hlt : 50000 < d.length
    · rw [if_pos hlt]
      have : jsOrNat (DIFF_LIMITS p) 50000 = 50000 := by
        simp [DIFF_LIMITS, jsOrNat, h1, h2, h3]
      simp [this, hlt]
    · rw [if_neg hlt]
      have : jsOrNat (DIFF_LIMITS p) 50000 = 50000 := by
        simp [DIFF_LIMITS, jsOrNat, h1, h2, h3]
      simp [this, hlt]

/-- Witness for the amended C2: a one-character diff on the unknown backend
grok is rejected with the unknown-provider error, no prompt, no network call
and no advisory. -/
theorem unknown_backend_amended_witness :
    (generateCommitMessage .thorough "x" "grok" cfgNone envNone netOk).result =
        .error (.unknownProvider "grok") ∧
    (generateCommitMessage .thorough "x" "grok" cfgNone envNone netOk).prompts = [] ∧
    (generateCommitMessage .thorough "x" "grok" cfgNone envNone netOk).netCalls = 0 ∧
    (generateCommitMessage .thorough "x" "grok" cfgNone envNone netOk).logs = [] := by
  have h := unknown_backend_amended .thorough "x" "grok" cfgNone envNone netOk (by decide)
  refine ⟨h.1, h.2.1, h.2.2.1, ?_⟩
  rw [h.2.2.2]
  decide

/-- C7: buildPrompt is a pure function of the diff and the style; its result
contains the diff verbatim as a substring and contains the fixed role-framing
text and the rules block of the chosen style. -/
theorem buildPrompt_spec (d : String) (style : Style) :
    ContainsSubstr (buildPrompt d style) d ∧
    ContainsSubstr (buildPrompt d style) (roleText style) ∧
    ContainsSubstr (buildPrompt d style) (rulesText style) := by
  refine ⟨⟨promptHead style, promptTail style, rfl⟩, ?_, ?_⟩
  · cases style
    · refine ⟨"", thoroughMid1 ++ (thoroughRules ++ (thoroughMid2 ++ (d ++ thoroughClose))), ?_⟩
      apply str_ext
      simp [buildPrompt, promptHead, promptTail, roleText, data_append, empty_data]
    · refine ⟨"", conciseMid1 ++ (conciseRules ++ (conciseMid2 ++ (d ++ conciseClose))), ?_⟩
      apply str_ext
      simp [buildPrompt, promptHead, promptTail, roleText, data_append, empty_data]
  · cases style
    · refine ⟨thoroughRole ++ thoroughMid1, thoroughMid2 ++ (d ++ thoroughClose), ?_⟩
      apply str_ext
      simp [buildPrompt, promptHead, promptTail, rulesText, data_append]
    · refine ⟨conciseRole ++ conciseMid1, conciseMid2 ++ (d ++ conciseClose), ?_⟩
      apply str_ext
      simp [buildPrompt, promptHead, promptTail, rulesText, data_append]

end AICommit
